import Mathlib

/-!
Verification of the booking session state machine of the Voice-Hotel-Booking
backend (`backend/app/api/vapi.py` together with the Redis session store of
`backend/app/services/session_manager.py`).

The webhook handlers are shallowly embedded as pure functions over an explicit
session store.  External collaborators (the AZDS rate provider, the browser
automation service, `random.randint`, the wall clock) are modelled as explicit
parameters carrying exactly the data the code reads from them.  Python string
operations used by the code (`str.replace` with one-character patterns,
`re.sub(r'\D', '', ...)`, `str.zfill`, slicing, f-string formatting of
integers) are given executable Lean counterparts.
-/

namespace VoiceHotel

/-! ## Models of the Python string primitives used by the handlers -/

/-- `s.replace(c, "")` for a one-character pattern `c`: removes every
occurrence of that character. -/
def removeChar (c : Char) (s : String) : String :=
  ⟨s.data.filter (fun x => x ≠ c)⟩

/-- `customer.get("number", "").replace("+", "").replace("-", "").replace(" ", "")`
— the caller-number normalization performed by `book_hotel_1` and
`book_hotel_2` before the phone-keyed session lookup. -/
def normalizePhone (s : String) : String :=
  removeChar ' ' (removeChar '-' (removeChar '+' s))

/-- `re.sub(r'\D', '', s)`: keep only the decimal digits. -/
def stripNonDigits (s : String) : String :=
  ⟨s.data.filter Char.isDigit⟩

/-- `s.zfill(2)` on the digit strings the code applies it to. -/
def zfill2 (s : String) : String :=
  ⟨List.replicate (2 - s.length) '0' ++ s.data⟩

/-- `s[-4:]` on a string of length at least 4. -/
def lastFour (s : String) : String :=
  ⟨s.data.drop (s.data.length - 4)⟩

/-- Decimal digits of a natural number (most significant first), with fuel;
32 digits of fuel is enough for every number the code formats. -/
def decDigitsAux : Nat → Nat → List Char
  | 0, _ => []
  | fuel + 1, n =>
    if n < 10 then [Char.ofNat (48 + n)]
    else decDigitsAux fuel (n / 10) ++ [Char.ofNat (48 + n % 10)]

/-- Model of Python `f"{n}"` / `str(n)` for a nonnegative integer. -/
def decRepr (n : Nat) : String := ⟨decDigitsAux 32 n⟩

/-- A nonempty all-digit character list as a number. -/
def parseDigits (l : List Char) : Option Nat :=
  if l ≠ [] ∧ l.all Char.isDigit then
    some (l.foldl (fun n c => n * 10 + (c.toNat - 48)) 0)
  else none

/-- Model of Python `int(s)` for the expiry fields: an optional sign followed
by digits; `none` models the `ValueError` branch.  (Python's `int` also
tolerates surrounding whitespace, which no claim exercises.) -/
def pyInt (s : String) : Option Int :=
  match s.data with
  | '-' :: rest => (parseDigits rest).map (fun n => -(n : Int))
  | '+' :: rest => (parseDigits rest).map (fun n => (n : Int))
  | l => (parseDigits l).map (fun n => (n : Int))

/-- Python `str.split(sep)` for a one-character separator (the shape used to
model the email regex): splitting `[]` yields `[[]]`, like `"".split(c)`. -/
def splitOnChar (c : Char) : List Char → List (List Char)
  | [] => [[]]
  | x :: xs =>
    if x = c then [] :: splitOnChar c xs
    else
      match splitOnChar c xs with
      | [] => [[x]]
      | h :: t => (x :: h) :: t

/-! ## Data model: rates, rooms and booking sessions

A Redis session document is a JSON object; the fields below are exactly the
keys written by `search_hotel`, `book_hotel_1`, `book_hotel_2` and
`session_manager.create_session`.  Keys that are absent until a later step
are `Option`s; monetary amounts (floats in the source, never computed with)
are carried as integers. -/

/-- One rate returned by the AZDS rate provider — the fields of the payload
that `search_hotel` and the booking steps read. -/
structure Rate where
  code : String
  roomCode : String
  description : String
  basePriceBeforeTax : Int
  totalWithTaxesAndFees : Int
  deriving Repr, DecidableEq

/-- One entry of `room_options`, as built by `search_hotel`. -/
structure Room where
  choice_number : Int
  room_code : String
  room_name : String
  rate_package : String
  price_before_tax : Int
  total_with_fees : Int
  rate_data : Rate
  deriving Repr, DecidableEq

/-- The `guest_info` object persisted by `book_hotel_2`. -/
structure GuestInfo where
  first_name : String
  last_name : String
  email : String
  phone : String
  address : String
  zip_code : String
  city : String
  state : String
  country : String
  deriving Repr, DecidableEq

/-- The `payment_info` object persisted by `book_hotel_2` (lines 1021–1026):
cardholder name, last four digits, expiry — and nothing else. -/
structure PaymentInfo where
  cardholder_name : String
  card_last_four : String
  expiry_month : String
  expiry_year : String
  deriving Repr, DecidableEq

/-- A booking session document. -/
structure Session where
  session_id : String
  created_at : String
  updated_at : String
  status : String
  step : String
  check_in_date : String
  check_out_date : String
  guests : Int
  occasion : String
  room_options : List Room
  selected_rates : List Rate
  hotel : String
  caller_phone : Option String
  browser_session_id : Option String := none
  browser_customer_id : Option String := none
  room_choice : Option Int := none
  selected_room : Option Room := none
  guest_info : Option GuestInfo := none
  payment_info : Option PaymentInfo := none
  confirmation_number : Option String := none
  completed_at : Option String := none
  deriving Repr, DecidableEq

/-! ## The session store

`BookingSessionManager` stores each session under the Redis key
`booking_session:<session_id>` with a 24h TTL.  The store is modelled as an
association list keyed by session id; `setex` overwrites, `delete` removes,
and reads see the most recent write (first match). -/

abbrev Store := List (String × Session)

def storeGet (st : Store) (sid : String) : Option Session :=
  st.lookup sid

def storeSet (st : Store) (sid : String) (s : Session) : Store :=
  (sid, s) :: st

def storeDelete (st : Store) (sid : String) : Store :=
  st.filter (fun p => p.1 ≠ sid)

/-! ## The session resolver

`book_hotel_1` / `book_hotel_2`, lines 473–486 resp. 673–685: session ids are
`f"booking_{int(time.time())}"`, and the resolver probes
`f"booking_{current_time - i}"` for `i in range(3600)`, returning the first
probe whose stored `caller_phone` equals the normalized inbound number. -/

def sessionIdAt (t : Int) : String := "booking_" ++ toString t

/-- One probe of the resolver loop: the candidate at time `t` exists and its
`caller_phone` equals the phone being looked up. -/
def matchesAt (st : Store) (phone : String) (t : Int) : Bool :=
  match storeGet st (sessionIdAt t) with
  | some s => s.caller_phone == some phone
  | none => false

def findSessionFrom (st : Store) (phone : String) : Int → Nat → Option String
  | _, 0 => none
  | t, fuel + 1 =>
    if matchesAt st phone t then some (sessionIdAt t)
    else findSessionFrom st phone (t - 1) fuel

/-- The resolver: scan the last hour (3600 candidate ids), newest first. -/
def findSession (st : Store) (phone : String) (now : Int) : Option String :=
  findSessionFrom st phone now 3600

/-! ## search_hotel -/

/-- `get_room_name` (vapi.py lines 216–233). -/
def get_room_name (room_code : String) : String :=
  if room_code = "PRDD" then "Proper Double Room"
  else if room_code = "PRKG" then "Proper King Room"
  else if room_code = "JSTE" then "Junior Suite"
  else if room_code = "PSTE" then "Proper Suite"
  else if room_code = "JS1DD" then "Junior Suite with Double Beds"
  else if room_code = "JS1PK" then "Junior Suite with King Bed"
  else if room_code = "PK1DD" then "Proper King Room with Double Beds"
  else if room_code = "BUNK" then "Bunk Room"
  else room_code ++ " Room"

/-- `room_options` as enumerated by `search_hotel` (lines 304–314):
`choice_number` is `i + 1` over the rates in provider order. -/
def mkRoomOptions (rates : List Rate) : List Room :=
  rates.enum.map fun p =>
    { choice_number := (p.1 : Int) + 1
      room_code := p.2.roomCode
      room_name := get_room_name p.2.roomCode
      rate_package := p.2.description
      price_before_tax := p.2.basePriceBeforeTax
      total_with_fees := p.2.totalWithTaxesAndFees
      rate_data := p.2 }

/-- The voice line for one rate (lines 396–413). -/
def rateDescription (i : Nat) (rate : Rate) : String :=
  let room_name := get_room_name rate.roomCode
  let rate_package := rate.description
  let full_description :=
    if rate_package ≠ "" ∧ rate_package ≠ room_name then
      room_name ++ " (" ++ rate_package ++ ")"
    else room_name
  toString (i + 1) ++ ". " ++ full_description ++ " - $" ++
    toString rate.basePriceBeforeTax ++ " per night, $" ++
    toString rate.totalWithTaxesAndFees ++ " total with taxes and fees"

/-- The spoken summary of all rates (line 416). -/
def searchResultText (check_in_date check_out_date : String) (guests : Int)
    (rates : List Rate) : String :=
  "Perfect! I found " ++ toString rates.length ++
    " available options for your stay from " ++ check_in_date ++ " to " ++
    check_out_date ++ " for " ++ toString guests ++ " guest" ++
    (if guests ≠ 1 then "s" else "") ++ ":\n\n" ++
    String.intercalate "\n" (rates.enum.map fun p => rateDescription p.1 p.2)

/-- What `search_hotel` returns: a bare corrective string on the error paths,
or the structured `{message, session_id, room_options, search_completed}`
dict on success. -/
inductive SearchResult where
  | err (message : String)
  | ok (message : String) (session_id : String) (room_options : List Room)
      (search_completed : Bool)
  deriving Repr, DecidableEq

/-- `search_hotel` (lines 236–445).
Explicit collaborator parameters:
* `caller_phone` — the number extracted by `handle_function_call`
  (lines 82–92): `customer.get("number", "")`, stored **without any
  normalization**; `none` models a failed extraction;
* `rates?` — the AZDS response: `none` models a provider/parse error
  (the `except` at line 439), `some rates` the `data.get("rates", [])` list;
* `now` — `int(datetime.now().timestamp())`, `nowIso` — the ISO timestamps
  written by the session manager;
* `browser?` — the `(sessionId, customerId)` pair of a successful
  browser-automation handshake, `none` when that best-effort call failed.
The `search.md` / JSON debug files written by the source are I/O with no
effect on the session store and are not modelled. -/
def searchHotel (st : Store) (check_in_date check_out_date : String)
    (guests : Int) (occasion : String) (caller_phone : Option String)
    (rates? : Option (List Rate)) (now : Int) (nowIso : String)
    (browser? : Option (String × String)) : SearchResult × Store :=
  if check_in_date = "" ∨ check_out_date = "" then
    (.err "I need check-in and check-out dates to search for hotel rates.", st)
  else
    match rates? with
    | none =>
      (.err "I'm having trouble getting hotel rates right now. Please try again.", st)
    | some rates =>
      if rates.isEmpty then
        (.err "I'm sorry, I couldn't find any available rates for San Francisco Proper Hotel for those dates.", st)
      else
        let booking_session_id := sessionIdAt now
        let room_options := mkRoomOptions rates
        -- session_manager.create_session merges these initial fields over
        -- {session_id, created_at, updated_at, status: "active", step: "initial"}
        let sess : Session :=
          { session_id := booking_session_id
            created_at := nowIso
            updated_at := nowIso
            status := "active"
            step := "search_completed"
            check_in_date := check_in_date
            check_out_date := check_out_date
            guests := guests
            occasion := occasion
            room_options := room_options
            selected_rates := rates
            hotel := "sf-proper"
            caller_phone := caller_phone }
        let st1 := storeSet st booking_session_id sess
        -- best-effort browser automation handshake (lines 354–393): on
        -- success the session is updated with the browser handles
        let st2 :=
          match browser? with
          | some handles =>
            storeSet st1 booking_session_id
              { sess with
                browser_session_id := some handles.1
                browser_customer_id := some handles.2
                updated_at := nowIso }
          | none => st1
        (.ok (searchResultText check_in_date check_out_date guests rates)
          booking_session_id room_options true, st2)

/-! ## Responses of book_hotel_1 / book_hotel_2 / start_over

One record holding the JSON fields those handlers return; fields a given
response does not carry keep their defaults. -/

structure Resp where
  result : String
  success : Bool
  statusCode : Nat
  step : Option Nat := none
  session_id : Option String := none
  selected_room : Option Room := none
  missing_fields : List String := []
  next_step : Option String := none
  action : Option String := none
  session_cleared : Option Bool := none
  confirmation_number : Option String := none
  booking_completed : Bool := false
  deriving Repr, DecidableEq

/-! ## book_hotel_1 -/

/-- A rejection response of `book_hotel_1`: the handler's failure payloads
all carry `{result, success: False, step: 1}` with HTTP status 400. -/
def book1Fail (msg : String) : Resp :=
  { result := msg, success := false, statusCode := 400, step := some 1 }

/-- The session update of `book_hotel_1` (lines 538–543), plus the
`updated_at` refresh `session_manager.update_session` performs. -/
def book1SessionUpdate (session_data : Session) (room_choice : Int)
    (selected_room : Room) (nowIso : String) : Session :=
  { session_data with
    step := "room_selected"
    room_choice := some room_choice
    selected_room := some selected_room
    updated_at := nowIso }

/-- The success response of `book_hotel_1` (lines 616–625). -/
def book1Success (session_id : String) (selected_room : Room) : Resp :=
  let room_description :=
    if selected_room.rate_package ≠ "" then
      selected_room.room_name ++ " (" ++ selected_room.rate_package ++ ")"
    else selected_room.room_name
  { result := "Perfect! I've selected the " ++ room_description ++ " at $" ++
      toString selected_room.price_before_tax ++
      " per night. Now I need your information to complete the booking. What name should I put the reservation under?"
    success := true, statusCode := 200, step := some 1
    session_id := some session_id
    selected_room := some selected_room
    next_step := some "collect_guest_and_payment_info" }

/-- `book_hotel_1` (lines 447–634).  `callerNumber` is the raw
`customer.get("number", "")` of the inbound call; `room_choice?` is the
already-parsed `room_choice` parameter (`none` when absent — the code
defaults it to 1).  The best-effort `/book/start` browser call (lines
575–614) reads the session but never writes the store and cannot change the
response, so it needs no parameter. -/
def bookHotel1 (st : Store) (callerNumber : String) (room_choice? : Option Int)
    (now : Int) (nowIso : String) : Resp × Store :=
  -- find session id using the caller's phone number
  match (if normalizePhone callerNumber ≠ "" then
           findSession st (normalizePhone callerNumber) now
         else none) with
  | none =>
    (book1Fail "I couldn't find your booking session. Please search for hotels first.", st)
  | some session_id =>
    match storeGet st session_id with
    | none =>
      (book1Fail "I couldn't find your booking session. Please search for hotels again.", st)
    | some session_data =>
      if session_data.room_options.isEmpty then
        (book1Fail "I couldn't find the room options. Please search for hotels again.", st)
      else if ¬ (room_choice?.getD 1 = 1 ∨ room_choice?.getD 1 = 2) then
        -- `if room_choice not in [1, 2]` (line 517)
        (book1Fail "Please choose room 1 or room 2 from the search results.", st)
      else
        match session_data.room_options.find?
            (fun room => room.choice_number == room_choice?.getD 1) with
        | none =>
          (book1Fail "I couldn't find the room details. Please search for hotels again.", st)
        | some selected_room =>
          (book1Success session_id selected_room,
           storeSet st session_id
             (book1SessionUpdate session_data (room_choice?.getD 1) selected_room nowIso))

/-! ## book_hotel_2: validators -/

/-- The character class `[a-zA-Z0-9._%+-]` of the local part of the email
pattern (line 803). -/
def isLocalChar (c : Char) : Bool :=
  c.isAlphanum || c == '.' || c == '_' || c == '%' || c == '+' || c == '-'

/-- The character class `[a-zA-Z0-9.-]` of the domain part. -/
def isDomainChar (c : Char) : Bool :=
  c.isAlphanum || c == '.' || c == '-'

/-- `re.match(r'^[a-zA-Z0-9._%+-]+@[a-zA-Z0-9.-]+\.[a-zA-Z]{2,}$', email)`:
the string matches exactly when it splits as `localpart@domain.tld` with a
nonempty local part over its class, a nonempty domain prefix over its class
up to the last dot, and a final all-alphabetic label of length ≥ 2. -/
def emailValid (s : String) : Bool :=
  match splitOnChar '@' s.data with
  | [localPart, domain] =>
    let parts := splitOnChar '.' domain
    let tld := (parts.getLast?).getD []
    let domainPrefix := List.intercalate ['.'] parts.dropLast
    !localPart.isEmpty && localPart.all isLocalChar &&
      decide (2 ≤ parts.length) && !domainPrefix.isEmpty &&
      domainPrefix.all isDomainChar &&
      decide (2 ≤ tld.length) && tld.all Char.isAlpha
  | _ => false

/-- The expiry gate (lines 844–850): rejected when
`year < today.year or (year == today.year and month < today.month)`. -/
def cardExpired (month year curMonth curYear : Int) : Bool :=
  year < curYear || (year == curYear && month < curMonth)

/-- The guest fields of `book_hotel_2` in the order the code checks them,
paired with their user-facing names (lines 740–767). -/
def guestFieldPairs (first_name last_name email phone address zip_code city
    state country : String) : List (String × String) :=
  [("first name", first_name), ("last name", last_name),
   ("email address", email), ("phone number", phone),
   ("street address", address), ("zip code", zip_code),
   ("city", city), ("state", state), ("country", country)]

/-- The friendly names of the guest fields whose value is falsy. -/
def missingGuestFields (first_name last_name email phone address zip_code city
    state country : String) : List String :=
  ((guestFieldPairs first_name last_name email phone address zip_code city
      state country).filter (fun p => p.2 = "")).map (·.1)

/-- `f"I still need your {', '.join(m[:-1])} and {m[-1]}"` when more than one
guest field is missing, else `f"I still need your {m[0]}"` (line 771). -/
def missingGuestMsg (missing : List String) : String :=
  if 1 < missing.length then
    "I still need your " ++ String.intercalate ", " missing.dropLast ++
      " and " ++ (missing.getLast?).getD ""
  else "I still need your " ++ (missing.head?).getD ""

/-- The missing payment fields, in the code's order (lines 778–789). -/
def missingPaymentFields (card_number expiry_month expiry_year cvv
    cardholder_name : String) : List String :=
  (if card_number = "" then ["card number"] else []) ++
  (if expiry_month = "" then ["expiry month"] else []) ++
  (if expiry_year = "" then ["expiry year"] else []) ++
  (if cvv = "" then ["CVV"] else []) ++
  (if cardholder_name = "" then ["cardholder name"] else [])

/-! ## book_hotel_2 -/

/-- The tool parameters of `book_hotel_2`.  Every field is read with
Python truthiness only (or after a presence check), so an absent / `None`
parameter is modelled by the empty string. -/
structure Book2Params where
  first_name : String := ""
  last_name : String := ""
  email : String := ""
  phone : String := ""
  address : String := ""
  zip_code : String := ""
  city : String := ""
  state : String := ""
  country : String := ""
  card_number : String := ""
  expiry_month : String := ""
  expiry_year : String := ""
  cvv : String := ""
  cardholder_name : String := ""
  deriving Repr, DecidableEq

/-- A rejection response of `book_hotel_2`: `{result, success: False,
step: 2}` with HTTP status 400. -/
def book2Fail (msg : String) : Resp :=
  { result := msg, success := false, statusCode := 400, step := some 2 }

/-- A rejection carrying the `missing_fields` list. -/
def book2FailMissing (msg : String) (missing : List String) : Resp :=
  { result := msg, success := false, statusCode := 400, step := some 2
    missing_fields := missing }

/-- The confirmation number `book_hotel_2` ends up with (lines 999–1003):
the collaborator's `confirmationNumber` if truthy, otherwise the synthesized
fallback `f"SF{random.randint(100000, 999999)}"`. -/
def confirmationOf (browserConf? : Option String) (randConf : Nat) : String :=
  match browserConf? with
  | some c => if c = "" then "SF" ++ decRepr randConf else c
  | none => "SF" ++ decRepr randConf

/-- The final session update of `book_hotel_2` (lines 1005–1028), plus the
`updated_at` refresh `session_manager.update_session` performs. -/
def book2SessionUpdate (session_data : Session) (p : Book2Params)
    (phone card_digits conf nowIso : String) : Session :=
  { session_data with
    step := "booking_completed"
    status := "completed"
    confirmation_number := some conf
    guest_info := some
      { first_name := p.first_name, last_name := p.last_name
        email := p.email, phone := phone
        address := p.address, zip_code := p.zip_code
        city := p.city, state := p.state, country := p.country }
    payment_info := some
      { cardholder_name := p.cardholder_name
        card_last_four :=
          if 4 ≤ card_digits.length then lastFour card_digits else "XXXX"
        expiry_month := zfill2 p.expiry_month
        expiry_year := p.expiry_year }
    completed_at := some nowIso
    updated_at := nowIso }

/-- The success response of `book_hotel_2` (lines 1036–1054). -/
def book2Success (session_id : String) (p : Book2Params) (conf : String) : Resp :=
  { result := "Excellent! Your reservation has been confirmed, " ++
      p.first_name ++ ". Your confirmation number is " ++ conf ++
      ". You'll receive a confirmation email at " ++ p.email ++
      " shortly with all the details. Thank you for choosing San Francisco Proper Hotel!"
    success := true, statusCode := 200, step := some 2
    session_id := some session_id
    confirmation_number := some conf
    booking_completed := true }

/-- The body of `book_hotel_2` once the session has been resolved and
fetched (lines 704–1054): the step gate, the validator chain, and the
completion. -/
def bookHotel2WithSession (st : Store) (session_id : String)
    (session_data : Session) (p : Book2Params) (curMonth curYear : Int)
    (browserConf? : Option String) (randConf : Nat) (nowIso : String) :
    Resp × Store :=
  -- verify we have a room selection from the previous step (line 705)
  if session_data.selected_room = none then
    (book2Fail "I need you to select a room first. Please start the booking process again.", st)
  else
    -- line 717: the "caller_phone" key is always present in sessions
    -- created by search_hotel, so dict.get returns the stored value; a
    -- stored None behaves as a missing field
    let phone := (session_data.caller_phone).getD ""
    let card_number := removeChar '-' (removeChar ' ' p.card_number)
    let missing_guest :=
      missingGuestFields p.first_name p.last_name p.email phone p.address
        p.zip_code p.city p.state p.country
    if missing_guest ≠ [] then
      (book2FailMissing (missingGuestMsg missing_guest) missing_guest, st)
    else
      let missing_payment :=
        missingPaymentFields card_number p.expiry_month p.expiry_year
          p.cvv p.cardholder_name
      if missing_payment ≠ [] then
        (book2FailMissing
          ("I still need your " ++ String.intercalate " and " missing_payment ++
            " to complete the booking.") missing_payment, st)
      else if ¬ emailValid p.email then
        (book2Fail "Please provide a valid email address.", st)
      else if (stripNonDigits phone).length < 10 then
        (book2Fail "Please provide a valid phone number with at least 10 digits.", st)
      else
        let card_digits := stripNonDigits card_number
        if card_digits.length < 13 ∨ 19 < card_digits.length then
          (book2Fail "Please provide a valid credit card number.", st)
        else
          match pyInt p.expiry_month, pyInt p.expiry_year with
          | some month, some year =>
            if month < 1 ∨ 12 < month then
              (book2Fail "Please provide a valid expiry month (01-12).", st)
            else if cardExpired month year curMonth curYear then
              (book2Fail "This card appears to be expired. Please provide a valid card.", st)
            else
              let cvv_digits := stripNonDigits p.cvv
              if cvv_digits.length < 3 ∨ 4 < cvv_digits.length then
                (book2Fail "Please provide a valid CVV (3 or 4 digits).", st)
              else
                let conf := confirmationOf browserConf? randConf
                (book2Success session_id p conf,
                 storeSet st session_id
                   (book2SessionUpdate session_data p phone card_digits conf nowIso))
          | _, _ =>
            (book2Fail "Please provide valid expiry month and year.", st)

/-- `book_hotel_2` (lines 636–1063).  Explicit collaborator parameters:
* `callerNumber` — the raw inbound `customer.get("number", "")`;
* `curMonth`, `curYear` — `date.today()`;
* `browserConf?` — the `confirmationNumber` produced by the browser
  automation calls (lines 904–997): `none` models every path that leaves
  `confirmation_number` unset (service unavailable, non-200, `success`
  false, timeout/exception, or a response without `confirmationNumber`);
* `randConf` — the value of `random.randint(100000, 999999)` (line 1002);
* `nowIso` — the ISO timestamps written on update. -/
def bookHotel2 (st : Store) (callerNumber : String) (p : Book2Params)
    (now : Int) (curMonth curYear : Int) (browserConf? : Option String)
    (randConf : Nat) (nowIso : String) : Resp × Store :=
  match (if normalizePhone callerNumber ≠ "" then
           findSession st (normalizePhone callerNumber) now
         else none) with
  | none =>
    (book2Fail "I need the booking session ID to continue. Please start the booking process again.", st)
  | some session_id =>
    match storeGet st session_id with
    | none =>
      (book2Fail "I couldn't find your booking session. Please start the booking process again.", st)
    | some session_data =>
      bookHotel2WithSession st session_id session_data p curMonth curYear
        browserConf? randConf nowIso

/-! ## start_over -/

/-- `start_over` (lines 158–214).  It reads only the optional `session_id`
tool parameter; if a (truthy) id is supplied and the session exists it is
deleted.  The response always reports success, with
`session_cleared = bool(session_id)` — whether an id was supplied, not
whether anything was deleted. -/
def startOver (st : Store) (session_id? : Option String) : Resp × Store :=
  let truthy : Bool :=
    match session_id? with
    | some sid => sid != ""
    | none => false
  let st' :=
    match session_id? with
    | some sid =>
      if sid ≠ "" then
        match storeGet st sid with
        | some _ => storeDelete st sid
        | none => st
      else st
    | none => st
  ({ result := "Absolutely! I've cleared your current booking. Let's start fresh - what dates would you like to stay at San Francisco Proper Hotel?"
     success := true, statusCode := 200
     action := some "start_over"
     session_cleared := some truthy
     next_step := some "collect_dates" }, st')

/-! ## Concrete fixtures for witnesses and counterexamples -/

def sampleRate1 : Rate :=
  { code := "ADVNC", roomCode := "PRKG", description := "Advance Purchase"
    basePriceBeforeTax := 400, totalWithTaxesAndFees := 470 }

def sampleRate2 : Rate :=
  { code := "BAR", roomCode := "PRDD", description := "Best Available Rate"
    basePriceBeforeTax := 450, totalWithTaxesAndFees := 530 }

def sampleRate3 : Rate :=
  { code := "PKG", roomCode := "JSTE", description := "Romance Package"
    basePriceBeforeTax := 600, totalWithTaxesAndFees := 700 }

/-- The `room_options` entry `search_hotel` builds for a rate at a choice
number. -/
def roomOf (n : Int) (r : Rate) : Room :=
  { choice_number := n, room_code := r.roomCode
    room_name := get_room_name r.roomCode, rate_package := r.description
    price_before_tax := r.basePriceBeforeTax
    total_with_fees := r.totalWithTaxesAndFees, rate_data := r }

/-- A caller number that already contains no punctuation, so the stored
`caller_phone` coincides with the lookup normalization. -/
def samplePhone : String := "14155550100"

/-- A session as created by `search_hotel` at Unix second 1000 with two
rates. -/
def sampleSession : Session :=
  { session_id := "booking_1000"
    created_at := "2025-12-01T10:00:00", updated_at := "2025-12-01T10:00:00"
    status := "active", step := "search_completed"
    check_in_date := "2025-12-20", check_out_date := "2025-12-22"
    guests := 2, occasion := ""
    room_options := [roomOf 1 sampleRate1, roomOf 2 sampleRate2]
    selected_rates := [sampleRate1, sampleRate2]
    hotel := "sf-proper", caller_phone := some samplePhone }

def sampleStore : Store := [("booking_1000", sampleSession)]

/-- `sampleSession` after `book_hotel_1` selected room 1. -/
def sampleSelectedSession : Session :=
  { sampleSession with
    step := "room_selected", room_choice := some 1
    selected_room := some (roomOf 1 sampleRate1)
    updated_at := "2025-12-01T10:05:00" }

def sampleSelectedStore : Store := [("booking_1000", sampleSelectedSession)]

/-- A session that has already completed a booking. -/
def sampleCompletedSession : Session :=
  { sampleSelectedSession with
    step := "booking_completed", status := "completed"
    confirmation_number := some "SF123456" }

def sampleCompletedStore : Store := [("booking_1000", sampleCompletedSession)]

/-- A session whose search returned three rates: `room_options` carries the
choice numbers 1, 2 and 3. -/
def threeRoomSession : Session :=
  { sampleSession with
    room_options := [roomOf 1 sampleRate1, roomOf 2 sampleRate2, roomOf 3 sampleRate3]
    selected_rates := [sampleRate1, sampleRate2, sampleRate3] }

def threeRoomStore : Store := [("booking_1000", threeRoomSession)]

/-- Fully valid guest and payment parameters for `book_hotel_2`. -/
def sampleParams : Book2Params :=
  { first_name := "John", last_name := "Doe", email := "john@example.com"
    phone := "", address := "123 Market Street", zip_code := "94103"
    city := "San Francisco", state := "CA", country := "USA"
    card_number := "4111 1111 1111 1111", expiry_month := "12"
    expiry_year := "2030", cvv := "123", cardholder_name := "John Doe" }

/-- `sampleSession` after `book_hotel_1` at `nowIso = "t1"` selected room 1. -/
def sampleAfterSelect : Session :=
  { sampleSession with
    step := "room_selected", room_choice := some 1
    selected_room := some (roomOf 1 sampleRate1), updated_at := "t1" }

/-- An inbound caller number in E.164 form, as VAPI delivers it. -/
def c4Number : String := "+14155550100"

/-- The store after `search_hotel` ran at Unix second 1000 for the caller
`c4Number`. -/
def c4Store : Store :=
  (searchHotel [] "2025-12-20" "2025-12-22" 2 "" (some c4Number)
    (some [sampleRate1, sampleRate2]) 1000 "2025-12-01T10:00:00" none).2

/-- The session `search_hotel` creates for the caller `c4Number`: identical
to `sampleSession` except that `caller_phone` keeps the raw number. -/
def c4Session : Session :=
  { sampleSession with caller_phone := some c4Number }

/-- The position of a step in the forward order
`search_completed → room_selected → booking_completed`. -/
def stepIdx (step : String) : Nat :=
  if step = "room_selected" then 1
  else if step = "booking_completed" then 2
  else 0

/-! # Theorems

First general lemmas about the store and the resolver, then one theorem per
claim. -/

/-! ## Store lemmas -/

theorem storeGet_storeSet (st : Store) (k k' : String) (s : Session) :
    storeGet (storeSet st k s) k' = if k' = k then some s else storeGet st k' := by
  simp only [storeGet, storeSet, List.lookup]
  by_cases h : k' = k
  · simp [h]
  · rw [if_neg h]
    simp [beq_eq_false_iff_ne.mpr h]

theorem storeGet_storeDelete (st : Store) (k k' : String) :
    storeGet (storeDelete st k) k' = if k' = k then none else storeGet st k' := by
  induction st with
  | nil => by_cases h : k' = k <;> simp [storeGet, storeDelete, List.lookup, h]
  | cons p st ih =>
    by_cases hpk : p.1 = k
    · have hdel : storeDelete (p :: st) k = storeDelete st k := by
        simp [storeDelete, List.filter_cons, hpk]
      rw [hdel, ih]
      by_cases h : k' = k
      · simp [h]
      · rw [if_neg h, if_neg h]
        have hne : (k' == p.1) = false :=
          beq_eq_false_iff_ne.mpr (fun e => h (by rw [e, hpk]))
        simp [storeGet, List.lookup, hne]
    · have hdel : storeDelete (p :: st) k = p :: storeDelete st k := by
        simp [storeDelete, List.filter_cons, hpk]
      rw [hdel]
      by_cases hk' : k' = p.1
      · have hb : (k' == p.1) = true := beq_iff_eq.mpr hk'
        have h : k' ≠ k := fun e => hpk (by rw [← hk', e])
        rw [if_neg h]
        simp [storeGet, List.lookup, hb]
      · have hb : (k' == p.1) = false := beq_eq_false_iff_ne.mpr hk'
        by_cases h : k' = k
        · rw [if_pos h]
          have := ih
          rw [if_pos h] at this
          simpa [storeGet, List.lookup, hb] using this
        · rw [if_neg h]
          have := ih
          rw [if_neg h] at this
          simpa [storeGet, List.lookup, hb] using this

theorem storeDelete_of_absent (st : Store) (k : String)
    (h : storeGet st k = none) : storeDelete st k = st := by
  induction st with
  | nil => rfl
  | cons p st ih =>
    rcases hb : (k == p.1) with _ | _
    · have hne : p.1 ≠ k := fun e => by
        simp [beq_iff_eq.mpr e.symm] at hb
      have h' : storeGet st k = none := by
        simpa [storeGet, List.lookup, hb] using h
      have hdel : storeDelete (p :: st) k = p :: storeDelete st k := by
        simp [storeDelete, List.filter_cons, hne]
      rw [hdel, ih h']
    · exfalso
      simp [storeGet, List.lookup, hb] at h

/-! ## Resolver lemmas -/

theorem findSessionFrom_eq_none_iff (st : Store) (phone : String) :
    ∀ (fuel : Nat) (t : Int),
      findSessionFrom st phone t fuel = none ↔
        ∀ i : Nat, i < fuel → matchesAt st phone (t - i) = false := by
  intro fuel
  induction fuel with
  | zero => intro t; simp [findSessionFrom]
  | succ n ih =>
    intro t
    rw [findSessionFrom]
    split
    next hm =>
      simp only [reduceCtorEq, false_iff, not_forall]
      refine ⟨0, by omega, ?_⟩
      simpa using hm
    next hm =>
      rw [ih (t - 1)]
      constructor
      · intro h i hi
        cases i with
        | zero => simpa using Bool.of_not_eq_true hm
        | succ j =>
          have e : t - 1 - (j : Int) = t - ((j + 1 : Nat) : Int) := by
            push_cast; ring
          exact e ▸ h j (by omega)
      · intro h i hi
        have e : t - 1 - (i : Int) = t - ((i + 1 : Nat) : Int) := by
          push_cast; ring
        exact e ▸ h (i + 1) (by omega)

theorem findSessionFrom_eq_some_first (st : Store) (phone : String) :
    ∀ (fuel i : Nat) (t : Int), i < fuel →
      matchesAt st phone (t - i) = true →
      (∀ j : Nat, j < i → matchesAt st phone (t - j) = false) →
      findSessionFrom st phone t fuel = some (sessionIdAt (t - i)) := by
  intro fuel
  induction fuel with
  | zero => intro i t hi; omega
  | succ n ih =>
    intro i t hi hm hfirst
    rw [findSessionFrom]
    cases i with
    | zero =>
      have h0 : matchesAt st phone t = true := by simpa using hm
      simp [h0]
    | succ i' =>
      have h0 : matchesAt st phone t = false := by
        simpa using hfirst 0 (by omega)
      simp only [h0, Bool.false_eq_true, if_false]
      have e : t - 1 - (i' : Int) = t - ((i' + 1 : Nat) : Int) := by
        push_cast; ring
      refine e ▸ ih i' (t - 1) (by omega) (e ▸ hm) ?_
      intro j hj
      have e' : t - 1 - (j : Int) = t - ((j + 1 : Nat) : Int) := by
        push_cast; ring
      exact e' ▸ hfirst (j + 1) (by omega)

/-! ## Step index lemmas -/

theorem stepIdx_le_two (x : String) : stepIdx x ≤ 2 := by
  unfold stepIdx
  by_cases h1 : x = "room_selected" <;> by_cases h2 : x = "booking_completed" <;>
    simp [h1, h2]

theorem stepIdx_le_one_of_ne (x : String) (h : x ≠ "booking_completed") :
    stepIdx x ≤ 1 := by
  unfold stepIdx
  by_cases h1 : x = "room_selected" <;> simp [h1, h]

/-! ## Store footprint of each operation -/

/-- `book_hotel_1` either leaves the store unchanged or overwrites exactly
one existing session with its `room_selected` update. -/
theorem bookHotel1_store_cases (st : Store) (number : String) (rc? : Option Int)
    (now : Int) (iso : String) :
    (bookHotel1 st number rc? now iso).2 = st ∨
    ∃ sid s room, storeGet st sid = some s ∧ room ∈ s.room_options ∧
      (bookHotel1 st number rc? now iso).2 =
        storeSet st sid
          { s with step := "room_selected", room_choice := some (rc?.getD 1)
                   selected_room := some room, updated_at := iso } := by
  simp only [bookHotel1]
  split
  · exact Or.inl rfl
  next sid heq =>
    split
    · exact Or.inl rfl
    next s heq2 =>
      split
      · exact Or.inl rfl
      split
      · exact Or.inl rfl
      split
      · exact Or.inl rfl
      next room heq3 =>
        exact Or.inr ⟨sid, s, room, heq2, List.mem_of_find?_eq_some heq3, rfl⟩

/-- `search_hotel` writes only at the id `booking_<now>` it creates: every
other key is untouched. -/
theorem searchHotel_preserves_other (st : Store) (ci co : String) (g : Int)
    (occ : String) (cp : Option String) (rates? : Option (List Rate))
    (now : Int) (iso : String) (br? : Option (String × String)) (sid : String)
    (hne : sid ≠ sessionIdAt now) :
    storeGet (searchHotel st ci co g occ cp rates? now iso br?).2 sid =
      storeGet st sid := by
  simp only [searchHotel]
  split
  · rfl
  split
  · rfl
  split
  · rfl
  split <;> simp [storeGet_storeSet, hne]

/-- `start_over` either leaves the store unchanged or deletes one session. -/
theorem startOver_store_cases (st : Store) (sid? : Option String) :
    (startOver st sid?).2 = st ∨
    ∃ sid, (startOver st sid?).2 = storeDelete st sid := by
  simp only [startOver]
  split
  next sid =>
    split
    · split
      · exact Or.inr ⟨sid, rfl⟩
      · exact Or.inl rfl
    · exact Or.inl rfl
  · exact Or.inl rfl

/-- `book_hotel_2` after session resolution either leaves the store
unchanged or overwrites the resolved session with its completion update. -/
theorem bookHotel2WithSession_store_cases (st : Store) (sid : String)
    (s : Session) (p : Book2Params) (cm cy : Int) (bc? : Option String)
    (rand : Nat) (iso : String) :
    (bookHotel2WithSession st sid s p cm cy bc? rand iso).2 = st ∨
    (bookHotel2WithSession st sid s p cm cy bc? rand iso).2 =
      storeSet st sid
        (book2SessionUpdate s p ((s.caller_phone).getD "")
          (stripNonDigits (removeChar '-' (removeChar ' ' p.card_number)))
          (confirmationOf bc? rand) iso) := by
  simp only [bookHotel2WithSession]
  repeat' (first | exact Or.inl rfl | exact Or.inr rfl | split)

/-- `book_hotel_2` either leaves the store unchanged or overwrites exactly
one existing session with a session in step `booking_completed`. -/
theorem bookHotel2_store_cases (st : Store) (number : String) (p : Book2Params)
    (now : Int) (cm cy : Int) (bc? : Option String) (rand : Nat) (iso : String) :
    (bookHotel2 st number p now cm cy bc? rand iso).2 = st ∨
    ∃ sid s snew, storeGet st sid = some s ∧ snew.step = "booking_completed" ∧
      (bookHotel2 st number p now cm cy bc? rand iso).2 = storeSet st sid snew := by
  simp only [bookHotel2]
  split
  · exact Or.inl rfl
  next sid h1 =>
    split
    · exact Or.inl rfl
    next s h2 =>
      rcases bookHotel2WithSession_store_cases st sid s p cm cy bc? rand iso with h | h
      · exact Or.inl h
      · exact Or.inr ⟨sid, s, _, h2, rfl, h⟩

/-- Resolution lemma: when the phone lookup succeeds, `book_hotel_2` is its
with-session body. -/
theorem bookHotel2_resolved (st : Store) (number : String) (p : Book2Params)
    (now : Int) (cm cy : Int) (bc? : Option String) (rand : Nat) (iso : String)
    (sid : String) (s : Session)
    (hn : normalizePhone number ≠ "")
    (hfind : findSession st (normalizePhone number) now = some sid)
    (hget : storeGet st sid = some s) :
    bookHotel2 st number p now cm cy bc? rand iso =
      bookHotel2WithSession st sid s p cm cy bc? rand iso := by
  simp only [bookHotel2, if_pos hn, hfind, hget]

/-- The validated success path of `book_hotel_2` after session resolution:
with a selected room and every validator passing, it returns the success
response and persists the completion update. -/
theorem bookHotel2WithSession_success (st : Store) (sid : String) (s : Session)
    (p : Book2Params) (cm cy : Int) (bc? : Option String) (rand : Nat)
    (iso : String) (month year : Int)
    (hroom : s.selected_room ≠ none)
    (hmg : missingGuestFields p.first_name p.last_name p.email
      ((s.caller_phone).getD "") p.address p.zip_code p.city p.state
      p.country = [])
    (hmp : missingPaymentFields (removeChar '-' (removeChar ' ' p.card_number))
      p.expiry_month p.expiry_year p.cvv p.cardholder_name = [])
    (hem : emailValid p.email = true)
    (hph : 10 ≤ (stripNonDigits ((s.caller_phone).getD "")).length)
    (hcd : 13 ≤ (stripNonDigits (removeChar '-' (removeChar ' ' p.card_number))).length ∧
      (stripNonDigits (removeChar '-' (removeChar ' ' p.card_number))).length ≤ 19)
    (hm : pyInt p.expiry_month = some month)
    (hy : pyInt p.expiry_year = some year)
    (hmr : 1 ≤ month ∧ month ≤ 12)
    (hexp : cardExpired month year cm cy = false)
    (hcvv : 3 ≤ (stripNonDigits p.cvv).length ∧ (stripNonDigits p.cvv).length ≤ 4) :
    bookHotel2WithSession st sid s p cm cy bc? rand iso =
      (book2Success sid p (confirmationOf bc? rand),
       storeSet st sid
         (book2SessionUpdate s p ((s.caller_phone).getD "")
           (stripNonDigits (removeChar '-' (removeChar ' ' p.card_number)))
           (confirmationOf bc? rand) iso)) := by
  simp only [bookHotel2WithSession, hm, hy]
  rw [if_neg hroom, if_neg (by simp [hmg]), if_neg (by simp [hmp]),
    if_neg (by simp [hem]), if_neg (by omega), if_neg (by omega),
    if_neg (by omega), if_neg (by simp [hexp]), if_neg (by omega)]

/-! ## Decimal rendering lemmas (for the fallback confirmation number) -/

theorem isDigit_ofNat (m : Nat) (h : m < 10) :
    (Char.ofNat (48 + m)).isDigit = true := by
  interval_cases m <;> decide

theorem decDigitsAux_length (k : Nat) :
    ∀ (fuel n : Nat), k < fuel → 10 ^ k ≤ n → n < 10 ^ (k + 1) →
      (decDigitsAux fuel n).length = k + 1 := by
  induction k with
  | zero =>
    intro fuel n hf h1 h2
    cases fuel with
    | zero => omega
    | succ f =>
      rw [decDigitsAux, if_pos (by simpa using h2)]
      rfl
  | succ k ih =>
    intro fuel n hf h1 h2
    cases fuel with
    | zero => omega
    | succ f =>
      have hp : 0 < 10 ^ k := pow_pos (by omega) k
      rw [decDigitsAux, if_neg (by omega), List.length_append]
      have e1 : 10 ^ k ≤ n / 10 := by
        rw [Nat.le_div_iff_mul_le (by omega)]
        calc 10 ^ k * 10 = 10 ^ (k + 1) := (pow_succ 10 k).symm
          _ ≤ n := h1
      have e2 : n / 10 < 10 ^ (k + 1) := by
        rw [Nat.div_lt_iff_lt_mul (by omega)]
        calc n < 10 ^ (k + 1 + 1) := h2
          _ = 10 ^ (k + 1) * 10 := pow_succ 10 (k + 1)
      rw [ih f (n / 10) (by omega) e1 e2]
      simp

theorem decDigitsAux_all_digits :
    ∀ (fuel n : Nat), (decDigitsAux fuel n).all Char.isDigit = true := by
  intro fuel
  induction fuel with
  | zero => intro n; rfl
  | succ f ih =>
    intro n
    rw [decDigitsAux]
    split
    next h =>
      simp only [List.all_cons, List.all_nil, Bool.and_true]
      exact isDigit_ofNat n h
    next h =>
      rw [List.all_append, ih]
      simp only [Bool.true_and, List.all_cons, List.all_nil, Bool.and_true]
      exact isDigit_ofNat (n % 10) (Nat.mod_lt _ (by omega))

/-- In the `randint(100000, 999999)` range the fallback suffix is exactly six
decimal digits. -/
theorem decRepr_six_digits (n : Nat) (h1 : 100000 ≤ n) (h2 : n ≤ 999999) :
    (decRepr n).length = 6 ∧ (decRepr n).data.all Char.isDigit = true := by
  constructor
  · have := decDigitsAux_length 5 32 n (by omega) (by norm_num; omega)
      (by norm_num; omega)
    simpa [decRepr, String.length] using this
  · exact decDigitsAux_all_digits 32 n

/-! ## Claim C3 — the session resolver -/

/-- C3: for every inbound caller number and resolution time `now`, the
resolver used by `book_hotel_1` and `book_hotel_2` probes the candidate ids
`booking_<now - i>` for each second `i` of a one-hour (3600 s) look-back
window, walking backward from `now`, and returns the first candidate whose
stored `caller_phone` equals the normalized inbound number (the candidate
nearest in time to `now`); if no candidate in the window matches, it reports
no session found. -/
theorem resolver_scans_hour_window_newest_first (st : Store) (number : String)
    (now : Int) :
    (findSession st (normalizePhone number) now = none ↔
      ∀ i : Nat, i < 3600 →
        matchesAt st (normalizePhone number) (now - i) = false) ∧
    (∀ i : Nat, i < 3600 →
      matchesAt st (normalizePhone number) (now - i) = true →
      (∀ j : Nat, j < i →
        matchesAt st (normalizePhone number) (now - j) = false) →
      findSession st (normalizePhone number) now =
        some (sessionIdAt (now - i))) := by
  refine ⟨findSessionFrom_eq_none_iff st _ 3600 now, ?_⟩
  intro i hi hm hfirst
  exact findSessionFrom_eq_some_first st _ 3600 i now hi hm hfirst

/-- C3 at a concrete input: one stored session at `booking_1000`, resolved
from `now = 1000` at probe 0. -/
theorem resolver_scans_witness :
    findSession sampleStore (normalizePhone samplePhone) 1000 =
      some (sessionIdAt (1000 - (0 : Nat))) :=
  (resolver_scans_hour_window_newest_first sampleStore samplePhone 1000).2 0
    (by omega) (by decide) (fun j hj => absurd hj (Nat.not_lt_zero j))

/-! ## Claim C7 — the payment expiry gate -/

/-- C7: the expiry gate of `book_hotel_2` rejects exactly the
`(expiry_month, expiry_year)` pairs lexicographically strictly before the
current `(month, year)`, and accepts an expiry equal to the current month
and year. -/
theorem expiry_gate_exact (m y cm cy : Int) :
    (cardExpired m y cm cy = true ↔
      Prod.Lex (· < ·) (· < ·) (y, m) (cy, cm)) ∧
    cardExpired cm cy cm cy = false := by
  constructor
  · rw [Prod.lex_def]
    simp [cardExpired]
  · simp [cardExpired]

/-! ## Claim C9 — start_over -/

/-- C9 counterexample: `start_over` performs no phone-based session
resolution — with a session stored for the caller but no `session_id`
parameter, nothing is deleted; and with an id supplied that names no stored
session it still answers `session_cleared = True`. -/
theorem startOver_counterexample :
    (startOver sampleStore none).2 = sampleStore ∧
    storeGet sampleStore (sessionIdAt 1000) = some sampleSession ∧
    sampleSession.caller_phone = some samplePhone ∧
    (startOver sampleStore none).1.session_cleared = some false ∧
    (startOver ([] : Store) (some "booking_1")).1.session_cleared = some true ∧
    storeGet ([] : Store) "booking_1" = none := by
  exact ⟨rfl, by decide, rfl, rfl, rfl, rfl⟩

/-- C9 (amended): `start_over` consults only the optionally supplied session
id — it performs no phone-based resolution.  It always reports success;
`session_cleared` equals whether a truthy session id was supplied (even if
no such session existed); a truthy supplied id is deleted when present;
with no id the store is untouched; and `start_over` never creates or
rewrites a session — any session present afterwards was already stored. -/
theorem startOver_always_success (st : Store) (sid? : Option String) :
    (startOver st sid?).1.success = true ∧
    (startOver st sid?).1.session_cleared =
      some (match sid? with | some sid => sid != "" | none => false) ∧
    (sid? = none → (startOver st sid?).2 = st) ∧
    (∀ sid, sid? = some sid → sid ≠ "" →
      (startOver st sid?).2 = storeDelete st sid) ∧
    (∀ sid s, storeGet (startOver st sid?).2 sid = some s →
      storeGet st sid = some s) := by
  refine ⟨rfl, rfl, ?_, ?_, ?_⟩
  · intro h; subst h; rfl
  · intro sid h he; subst h
    simp only [startOver, if_pos he]
    cases hsg : storeGet st sid with
    | some s => rfl
    | none => exact (storeDelete_of_absent st sid hsg).symm
  · intro sid s hs
    rcases startOver_store_cases st sid? with h | ⟨sid0, h⟩
    · rwa [h] at hs
    · rw [h, storeGet_storeDelete] at hs
      by_cases he : sid = sid0
      · rw [if_pos he] at hs; cases hs
      · rwa [if_neg he] at hs

/-! ## Claim C5 — completion requires a selected room -/

/-- C5: for every resolvable session in which no room has been selected,
`book_hotel_2` fails with the "select a room first" corrective response and
does not mutate the store, regardless of the supplied guest and payment
fields. -/
theorem book2_requires_selected_room (st : Store) (number : String)
    (p : Book2Params) (now : Int) (cm cy : Int) (bc? : Option String)
    (rand : Nat) (iso : String) (sid : String) (s : Session)
    (hn : normalizePhone number ≠ "")
    (hfind : findSession st (normalizePhone number) now = some sid)
    (hget : storeGet st sid = some s)
    (hroom : s.selected_room = none) :
    (bookHotel2 st number p now cm cy bc? rand iso).1.success = false ∧
    (bookHotel2 st number p now cm cy bc? rand iso).1.result =
      "I need you to select a room first. Please start the booking process again." ∧
    (bookHotel2 st number p now cm cy bc? rand iso).2 = st := by
  rw [bookHotel2_resolved st number p now cm cy bc? rand iso sid s hn hfind hget]
  unfold bookHotel2WithSession
  rw [if_pos hroom]
  exact ⟨rfl, rfl, rfl⟩

/-- C5 at a concrete input: a freshly searched session (no room selected)
with fully valid guest and payment parameters is still rejected. -/
theorem book2_requires_selected_room_witness :
    (bookHotel2 sampleStore samplePhone sampleParams 1000 10 2025 none 123456 "t").1.success = false ∧
    (bookHotel2 sampleStore samplePhone sampleParams 1000 10 2025 none 123456 "t").1.result =
      "I need you to select a room first. Please start the booking process again." ∧
    (bookHotel2 sampleStore samplePhone sampleParams 1000 10 2025 none 123456 "t").2 = sampleStore :=
  book2_requires_selected_room sampleStore samplePhone sampleParams 1000 10 2025
    none 123456 "t" "booking_1000" sampleSession (by decide) (by decide)
    (by decide) (by decide)

/-! ## Claim C10 — room_choice defaults to 1 -/

/-- C10: invoking `book_hotel_1` without a `room_choice` parameter defaults
the choice to 1: with a resolvable session whose `room_options` contains a
`choice_number` 1 entry, the call succeeds and selects that room instead of
rejecting the request for a missing field. -/
theorem book1_default_choice_one (st : Store) (number : String) (now : Int)
    (iso : String) (sid : String) (s : Session) (room : Room)
    (hn : normalizePhone number ≠ "")
    (hfind : findSession st (normalizePhone number) now = some sid)
    (hget : storeGet st sid = some s)
    (hfound : s.room_options.find? (fun r => r.choice_number == 1) = some room) :
    (bookHotel1 st number none now iso).1.success = true ∧
    (bookHotel1 st number none now iso).1.selected_room = some room ∧
    (bookHotel1 st number none now iso).2 =
      storeSet st sid (book1SessionUpdate s 1 room iso) := by
  have hne : ¬ (s.room_options.isEmpty = true) := by
    cases ho : s.room_options with
    | nil => rw [ho] at hfound; simp [List.find?] at hfound
    | cons a l => simp [ho]
  simp only [bookHotel1]
  rw [if_pos hn, hfind]
  simp only [hget, Option.getD]
  rw [if_neg hne, if_neg (by simp)]
  simp only [hfound]
  refine ⟨?_, ?_, ?_⟩ <;> first | rfl | trivial

/-- C10 at a concrete input: `book_hotel_1` with no `room_choice` on the
two-option sample session selects room 1. -/
theorem book1_default_choice_one_witness :
    (bookHotel1 sampleStore samplePhone none 1000 "t1").1.success = true ∧
    (bookHotel1 sampleStore samplePhone none 1000 "t1").1.selected_room =
      some (roomOf 1 sampleRate1) ∧
    (bookHotel1 sampleStore samplePhone none 1000 "t1").2 =
      storeSet sampleStore "booking_1000"
        (book1SessionUpdate sampleSession 1 (roomOf 1 sampleRate1) "t1") :=
  book1_default_choice_one sampleStore samplePhone 1000 "t1" "booking_1000"
    sampleSession (roomOf 1 sampleRate1) (by decide) (by decide) (by decide)
    (by decide)

/-! ## Claim C2 — room-choice validation -/

/-- C2 counterexample: with three stored room options, choice 3 **is** among
the enumerated `choice_number`s, yet `book_hotel_1` rejects it — the gate
accepts only 1 or 2 — leaving the store unchanged.  So acceptance is not
equivalent to membership among the `choice_number`s. -/
theorem book1_choice3_rejected :
    threeRoomSession.room_options.map Room.choice_number = [1, 2, 3] ∧
    (bookHotel1 threeRoomStore samplePhone (some 3) 1000 "t1").1.success = false ∧
    (bookHotel1 threeRoomStore samplePhone (some 3) 1000 "t1").1.result =
      "Please choose room 1 or room 2 from the search results." ∧
    (bookHotel1 threeRoomStore samplePhone (some 3) 1000 "t1").2 = threeRoomStore := by
  exact ⟨by decide, by decide, by decide, by decide⟩

/-- C2 (amended): for a resolvable session with non-empty `room_options`,
`book_hotel_1` accepts and advances exactly when the supplied choice is 1 or
2 **and** equals the `choice_number` of some entry of `room_options`; in
every other case it returns a non-success corrective response and leaves the
store unchanged. -/
theorem book1_choice_validation (st : Store) (number : String) (choice : Int)
    (now : Int) (iso : String) (sid : String) (s : Session)
    (hn : normalizePhone number ≠ "")
    (hfind : findSession st (normalizePhone number) now = some sid)
    (hget : storeGet st sid = some s)
    (hopts : s.room_options ≠ []) :
    ((bookHotel1 st number (some choice) now iso).1.success = true ↔
      ((choice = 1 ∨ choice = 2) ∧
        ∃ room ∈ s.room_options, room.choice_number = choice)) ∧
    ((bookHotel1 st number (some choice) now iso).1.success = false →
      (bookHotel1 st number (some choice) now iso).2 = st) := by
  have hne : ¬ (s.room_options.isEmpty = true) := by
    simpa [List.isEmpty_iff] using hopts
  simp only [bookHotel1]
  rw [if_pos hn, hfind]
  simp only [hget, Option.getD]
  rw [if_neg hne]
  by_cases hc : choice = 1 ∨ choice = 2
  · rw [if_neg (not_not_intro hc)]
    cases hfd : s.room_options.find? (fun r => r.choice_number == choice) with
    | none =>
      refine ⟨⟨fun habs => absurd habs (by simp [book1Fail]), ?_⟩, fun _ => rfl⟩
      rintro ⟨-, room, hmem, hcn⟩
      have := List.find?_eq_none.mp hfd room hmem
      simp [hcn] at this
    | some room =>
      refine ⟨⟨fun _ => ⟨hc, room, List.mem_of_find?_eq_some hfd, ?_⟩, fun _ => rfl⟩,
        fun habs => absurd habs (by simp [book1Success])⟩
      simpa using List.find?_some hfd
  · rw [if_pos (by simpa using hc)]
    exact ⟨⟨fun habs => absurd habs (by simp [book1Fail]),
      fun h => absurd h.1 hc⟩, fun _ => rfl⟩

/-- C2 (amended) at a concrete input: choice 2 on the two-option sample
session is accepted (2 is listed); on the same session the validation
equivalence is realized. -/
theorem book1_choice_validation_witness :
    ((bookHotel1 sampleStore samplePhone (some 2) 1000 "t1").1.success = true ↔
      (((2 : Int) = 1 ∨ (2 : Int) = 2) ∧
        ∃ room ∈ sampleSession.room_options, room.choice_number = 2)) ∧
    ((bookHotel1 sampleStore samplePhone (some 2) 1000 "t1").1.success = false →
      (bookHotel1 sampleStore samplePhone (some 2) 1000 "t1").2 = sampleStore) :=
  book1_choice_validation sampleStore samplePhone 2 1000 "t1" "booking_1000"
    sampleSession (by decide) (by decide) (by decide) (by decide)

/-! ## Claim C1 — forward-only steps -/

/-- C1 counterexample: a session in `booking_completed` is **not** terminal.
`book_hotel_1` never checks the current step, so invoked against a completed
session (which still holds `room_options`) it moves the step back to
`room_selected` — an earlier value in the order. -/
theorem completed_session_regresses :
    sampleCompletedSession.step = "booking_completed" ∧
    storeGet sampleCompletedStore "booking_1000" = some sampleCompletedSession ∧
    (storeGet (bookHotel1 sampleCompletedStore samplePhone (some 1) 1000 "t1").2
        "booking_1000").map Session.step = some "room_selected" ∧
    stepIdx "room_selected" < stepIdx "booking_completed" := by
  exact ⟨rfl, by decide, by decide, by decide⟩

/-- C1 (amended): `book_hotel_2` never lowers any session's step, and
`book_hotel_1` never lowers the step of a session that is not already in
`booking_completed`; a completed session, however, is **not** terminal —
`book_hotel_1` can move it back to `room_selected`.  `search_hotel` leaves
every session other than the one at its newly created id (`booking_<now>`)
unchanged, and `start_over` only deletes sessions — any session present
after it was already stored unchanged. -/
theorem step_forward_except_completed (st : Store) (number : String)
    (rc? : Option Int) (p : Book2Params) (now : Int) (cm cy : Int)
    (bc? : Option String) (rand : Nat) (iso : String) (ci co : String)
    (g : Int) (occ : String) (cp : Option String)
    (rates? : Option (List Rate)) (br? : Option (String × String))
    (sid2? : Option String) :
    (∀ sid s s', storeGet st sid = some s →
      storeGet (bookHotel2 st number p now cm cy bc? rand iso).2 sid = some s' →
      stepIdx s.step ≤ stepIdx s'.step) ∧
    (∀ sid s s', storeGet st sid = some s → s.step ≠ "booking_completed" →
      storeGet (bookHotel1 st number rc? now iso).2 sid = some s' →
      stepIdx s.step ≤ stepIdx s'.step) ∧
    (∀ sid s, sid ≠ sessionIdAt now → storeGet st sid = some s →
      storeGet (searchHotel st ci co g occ cp rates? now iso br?).2 sid = some s) ∧
    (∀ sid s, storeGet (startOver st sid2?).2 sid = some s →
      storeGet st sid = some s) := by
  refine ⟨?_, ?_, ?_, ?_⟩
  · intro sid s s' hs hs'
    rcases bookHotel2_store_cases st number p now cm cy bc? rand iso with
      h | ⟨sid0, s0, snew, hget0, hstep, h⟩
    · rw [h, hs] at hs'
      cases hs'
      exact le_refl _
    · rw [h, storeGet_storeSet] at hs'
      by_cases he : sid = sid0
      · rw [if_pos he] at hs'
        cases hs'
        rw [hstep]
        exact stepIdx_le_two s.step
      · rw [if_neg he, hs] at hs'
        cases hs'
        exact le_refl _
  · intro sid s s' hs hne hs'
    rcases bookHotel1_store_cases st number rc? now iso with
      h | ⟨sid0, s0, room, hget0, _, h⟩
    · rw [h, hs] at hs'
      cases hs'
      exact le_refl _
    · rw [h, storeGet_storeSet] at hs'
      by_cases he : sid = sid0
      · rw [if_pos he] at hs'
        cases hs'
        exact stepIdx_le_one_of_ne s.step hne
      · rw [if_neg he, hs] at hs'
        cases hs'
        exact le_refl _
  · intro sid s hne hs
    rw [searchHotel_preserves_other st ci co g occ cp rates? now iso br? sid hne]
    exact hs
  · intro sid s hs
    rcases startOver_store_cases st sid2? with h | ⟨sid0, h⟩
    · rwa [h] at hs
    · rw [h, storeGet_storeDelete] at hs
      by_cases he : sid = sid0
      · rw [if_pos he] at hs; cases hs
      · rwa [if_neg he] at hs

/-! ## Claim C4 — caller_phone stored without normalization -/

/-- C4: contrary to the claim, the caller identifier stored at session
creation is **not** normalized.  `handle_function_call` extracts
`customer.get("number", "")` and `search_hotel` stores it as-is, so for the
E.164 inbound number `"+14155550100"` the stored `caller_phone` keeps the
`+`, while the later lookup compares against the digits-only normalization —
the resolver finds nothing even though the session is inside the look-back
window, and the select-room step therefore fails. -/
theorem caller_phone_stored_raw_breaks_lookup :
    storeGet c4Store (sessionIdAt 1000) = some c4Session ∧
    c4Session.caller_phone = some "+14155550100" ∧
    normalizePhone "+14155550100" = "14155550100" ∧
    findSession c4Store (normalizePhone "+14155550100") 1000 = none ∧
    (bookHotel1 c4Store "+14155550100" (some 1) 1000 "t1").1.success = false := by
  have hst : c4Store = [("booking_1000", c4Session)] := by decide
  have hnm : ∀ t : Int,
      matchesAt c4Store (normalizePhone "+14155550100") t = false := by
    intro t
    unfold matchesAt storeGet
    rw [hst]
    simp only [List.lookup]
    cases hb : (sessionIdAt t == "booking_1000") with
    | true => simp [c4Session, sampleSession, c4Number, samplePhone]; decide
    | false => rfl
  have hnone : findSession c4Store (normalizePhone "+14155550100") 1000 = none :=
    (findSessionFrom_eq_none_iff c4Store _ 3600 1000).mpr (fun i _ => hnm _)
  refine ⟨by decide, rfl, by decide, hnone, ?_⟩
  simp only [bookHotel1]
  rw [if_pos (by decide), hnone]
  rfl

/-! ## Claim C6 — fallback confirmation number -/

/-- C6: whenever the browser-automation collaborator does not supply a
confirmation number (`browserConf? = none` models unavailability, errors,
timeouts and success-without-`confirmationNumber`; the last conjunct covers
an empty-string confirmation, which Python truthiness also treats as
absent), a validated `book_hotel_2` completion still succeeds for the
caller and returns a non-absent confirmation number: the fixed prefix `SF`
followed by the six decimal digits of `random.randint(100000, 999999)`. -/
theorem fallback_confirmation_number (st : Store) (number : String)
    (p : Book2Params) (now : Int) (cm cy : Int) (rand : Nat) (iso : String)
    (sid : String) (s : Session) (month year : Int)
    (hrand1 : 100000 ≤ rand) (hrand2 : rand ≤ 999999)
    (hn : normalizePhone number ≠ "")
    (hfind : findSession st (normalizePhone number) now = some sid)
    (hget : storeGet st sid = some s)
    (hroom : s.selected_room ≠ none)
    (hmg : missingGuestFields p.first_name p.last_name p.email
      ((s.caller_phone).getD "") p.address p.zip_code p.city p.state
      p.country = [])
    (hmp : missingPaymentFields (removeChar '-' (removeChar ' ' p.card_number))
      p.expiry_month p.expiry_year p.cvv p.cardholder_name = [])
    (hem : emailValid p.email = true)
    (hph : 10 ≤ (stripNonDigits ((s.caller_phone).getD "")).length)
    (hcd1 : 13 ≤ (stripNonDigits (removeChar '-' (removeChar ' ' p.card_number))).length)
    (hcd2 : (stripNonDigits (removeChar '-' (removeChar ' ' p.card_number))).length ≤ 19)
    (hm : pyInt p.expiry_month = some month)
    (hy : pyInt p.expiry_year = some year)
    (hmr1 : 1 ≤ month) (hmr2 : month ≤ 12)
    (hexp : cardExpired month year cm cy = false)
    (hcvv1 : 3 ≤ (stripNonDigits p.cvv).length)
    (hcvv2 : (stripNonDigits p.cvv).length ≤ 4) :
    (bookHotel2 st number p now cm cy none rand iso).1.success = true ∧
    (bookHotel2 st number p now cm cy none rand iso).1.booking_completed = true ∧
    (bookHotel2 st number p now cm cy none rand iso).1.confirmation_number =
      some ("SF" ++ decRepr rand) ∧
    (decRepr rand).length = 6 ∧
    (decRepr rand).data.all Char.isDigit = true ∧
    confirmationOf (some "") rand = "SF" ++ decRepr rand := by
  rw [bookHotel2_resolved st number p now cm cy none rand iso sid s hn hfind hget,
    bookHotel2WithSession_success st sid s p cm cy none rand iso month year
      hroom hmg hmp hem hph ⟨hcd1, hcd2⟩ hm hy ⟨hmr1, hmr2⟩ hexp ⟨hcvv1, hcvv2⟩]
  obtain ⟨hl, hd⟩ := decRepr_six_digits rand hrand1 hrand2
  exact ⟨rfl, rfl, rfl, hl, hd, rfl⟩

/-- C6 at a concrete input: the sample room-selected session, valid guest
and payment data, no collaborator confirmation, `randint` = 123456. -/
theorem fallback_confirmation_number_witness :
    (bookHotel2 sampleSelectedStore samplePhone sampleParams 1000 10 2025 none
      123456 "t").1.success = true ∧
    (bookHotel2 sampleSelectedStore samplePhone sampleParams 1000 10 2025 none
      123456 "t").1.booking_completed = true ∧
    (bookHotel2 sampleSelectedStore samplePhone sampleParams 1000 10 2025 none
      123456 "t").1.confirmation_number = some ("SF" ++ decRepr 123456) ∧
    (decRepr 123456).length = 6 ∧
    (decRepr 123456).data.all Char.isDigit = true ∧
    confirmationOf (some "") 123456 = "SF" ++ decRepr 123456 :=
  fallback_confirmation_number sampleSelectedStore samplePhone sampleParams
    1000 10 2025 123456 "t" "booking_1000" sampleSelectedSession 12 2030
    (by omega) (by omega) (by decide) (by decide) (by decide) (by decide)
    (by decide) (by decide) (by decide) (by decide) (by decide) (by decide)
    (by decide) (by decide) (by omega) (by omega) (by decide) (by decide)
    (by decide)

/-! ## Claim C8 — payment summary stores last-four only -/

theorem lastFour_length (s : String) (h : 4 ≤ s.length) :
    (lastFour s).length = 4 := by
  simp only [lastFour, String.length] at h ⊢
  rw [List.length_drop]
  omega

/-- C8: on every successful completion, the `payment_info` persisted into
the session by `book_hotel_2` holds exactly the cardholder name, the last
four digits of the card number, and the expiry month and year.  The stored
last-four is a four-character string and never the full card number (whose
length is at least 13), and the persisted summary is identical whatever CVV
was supplied — neither the full card number nor the CVV is stored. -/
theorem payment_info_last_four_only (st : Store) (number : String)
    (p : Book2Params) (now : Int) (cm cy : Int) (bc? : Option String)
    (rand : Nat) (iso : String) (sid : String) (s : Session) (month year : Int)
    (hn : normalizePhone number ≠ "")
    (hfind : findSession st (normalizePhone number) now = some sid)
    (hget : storeGet st sid = some s)
    (hroom : s.selected_room ≠ none)
    (hmg : missingGuestFields p.first_name p.last_name p.email
      ((s.caller_phone).getD "") p.address p.zip_code p.city p.state
      p.country = [])
    (hmp : missingPaymentFields (removeChar '-' (removeChar ' ' p.card_number))
      p.expiry_month p.expiry_year p.cvv p.cardholder_name = [])
    (hem : emailValid p.email = true)
    (hph : 10 ≤ (stripNonDigits ((s.caller_phone).getD "")).length)
    (hcd1 : 13 ≤ (stripNonDigits (removeChar '-' (removeChar ' ' p.card_number))).length)
    (hcd2 : (stripNonDigits (removeChar '-' (removeChar ' ' p.card_number))).length ≤ 19)
    (hm : pyInt p.expiry_month = some month)
    (hy : pyInt p.expiry_year = some year)
    (hmr1 : 1 ≤ month) (hmr2 : month ≤ 12)
    (hexp : cardExpired month year cm cy = false)
    (hcvv1 : 3 ≤ (stripNonDigits p.cvv).length)
    (hcvv2 : (stripNonDigits p.cvv).length ≤ 4) :
    storeGet (bookHotel2 st number p now cm cy bc? rand iso).2 sid =
      some (book2SessionUpdate s p ((s.caller_phone).getD "")
        (stripNonDigits (removeChar '-' (removeChar ' ' p.card_number)))
        (confirmationOf bc? rand) iso) ∧
    (book2SessionUpdate s p ((s.caller_phone).getD "")
        (stripNonDigits (removeChar '-' (removeChar ' ' p.card_number)))
        (confirmationOf bc? rand) iso).payment_info =
      some { cardholder_name := p.cardholder_name
             card_last_four :=
               lastFour (stripNonDigits (removeChar '-' (removeChar ' ' p.card_number)))
             expiry_month := zfill2 p.expiry_month
             expiry_year := p.expiry_year } ∧
    (lastFour (stripNonDigits (removeChar '-' (removeChar ' ' p.card_number)))).length = 4 ∧
    lastFour (stripNonDigits (removeChar '-' (removeChar ' ' p.card_number))) ≠
      stripNonDigits (removeChar '-' (removeChar ' ' p.card_number)) ∧
    (∀ cvv' : String,
      (book2SessionUpdate s { p with cvv := cvv' } ((s.caller_phone).getD "")
        (stripNonDigits (removeChar '-' (removeChar ' ' p.card_number)))
        (confirmationOf bc? rand) iso).payment_info =
      (book2SessionUpdate s p ((s.caller_phone).getD "")
        (stripNonDigits (removeChar '-' (removeChar ' ' p.card_number)))
        (confirmationOf bc? rand) iso).payment_info) := by
  have h4 : (4 : Nat) ≤
      (stripNonDigits (removeChar '-' (removeChar ' ' p.card_number))).length := by
    omega
  refine ⟨?_, ?_, lastFour_length _ h4, ?_, fun cvv' => rfl⟩
  · rw [bookHotel2_resolved st number p now cm cy bc? rand iso sid s hn hfind hget,
      bookHotel2WithSession_success st sid s p cm cy bc? rand iso month year
        hroom hmg hmp hem hph ⟨hcd1, hcd2⟩ hm hy ⟨hmr1, hmr2⟩ hexp ⟨hcvv1, hcvv2⟩]
    rw [storeGet_storeSet, if_pos rfl]
  · simp only [book2SessionUpdate]
    rw [if_pos h4]
  · intro e
    have := congrArg String.length e
    rw [lastFour_length _ h4] at this
    omega

/-- C8 at a concrete input: the completed sample session persists the card
as its cardholder name, last four digits `1111` and expiry only. -/
theorem payment_info_last_four_only_witness :
    storeGet (bookHotel2 sampleSelectedStore samplePhone sampleParams 1000 10
        2025 (some "CONF99") 123456 "t").2 "booking_1000" =
      some (book2SessionUpdate sampleSelectedSession sampleParams
        ((sampleSelectedSession.caller_phone).getD "")
        (stripNonDigits (removeChar '-' (removeChar ' ' sampleParams.card_number)))
        (confirmationOf (some "CONF99") 123456) "t") ∧
    (book2SessionUpdate sampleSelectedSession sampleParams
        ((sampleSelectedSession.caller_phone).getD "")
        (stripNonDigits (removeChar '-' (removeChar ' ' sampleParams.card_number)))
        (confirmationOf (some "CONF99") 123456) "t").payment_info =
      some { cardholder_name := sampleParams.cardholder_name
             card_last_four := lastFour (stripNonDigits
               (removeChar '-' (removeChar ' ' sampleParams.card_number)))
             expiry_month := zfill2 sampleParams.expiry_month
             expiry_year := sampleParams.expiry_year } ∧
    (lastFour (stripNonDigits
      (removeChar '-' (removeChar ' ' sampleParams.card_number)))).length = 4 ∧
    lastFour (stripNonDigits
        (removeChar '-' (removeChar ' ' sampleParams.card_number))) ≠
      stripNonDigits (removeChar '-' (removeChar ' ' sampleParams.card_number)) ∧
    (∀ cvv' : String,
      (book2SessionUpdate sampleSelectedSession
        { sampleParams with cvv := cvv' }
        ((sampleSelectedSession.caller_phone).getD "")
        (stripNonDigits (removeChar '-' (removeChar ' ' sampleParams.card_number)))
        (confirmationOf (some "CONF99") 123456) "t").payment_info =
      (book2SessionUpdate sampleSelectedSession sampleParams
        ((sampleSelectedSession.caller_phone).getD "")
        (stripNonDigits (removeChar '-' (removeChar ' ' sampleParams.card_number)))
        (confirmationOf (some "CONF99") 123456) "t").payment_info) :=
  payment_info_last_four_only sampleSelectedStore samplePhone sampleParams 1000
    10 2025 (some "CONF99") 123456 "t" "booking_1000" sampleSelectedSession 12
    2030 (by decide) (by decide) (by decide) (by decide) (by decide)
    (by decide) (by decide) (by decide) (by decide) (by decide) (by decide)
    (by decide) (by omega) (by omega) (by decide) (by decide) (by decide)

end VoiceHotel
